import Mathlib

/-!
Verification of the amalthea/ark Jupyter kernel protocol engine.

This file embeds, in Lean, the data model and operations of the kernel
wire-protocol subsystem:

* `src/amalthea/src/wire/jupyter_message.rs` — the `JupyterMessage` record,
  the closed `Message` catalog with its tag-driven decode (`TryFrom<WireMessage>`),
  and reply construction (`create`, `create_reply`, `error_reply`).
* `src/amalthea/src/socket/shell.rs` — the Shell channel loop (`listen`),
  dispatch (`process_message`), the Busy/Idle bracket (`handle_request`,
  `send_state`) and the per-variant handler wrappers.
* `src/amalthea/src/kernel.rs` — `Kernel::connect` thread/socket startup.
* `src/ark/src/shell.rs` — the R-language `ShellHandler` implementation
  (`handle_execute_request`, `handle_comm_open`, ...).

Support modules of the repository (wire content structs, `header.rs`,
`error.rs`, `session.rs`, the `ShellHandler` trait, `exception.rs`) are not
part of the analysed sources; their definitions below are modelled from the
specification and from how they are used in the analysed files, and each such
definition says so in its doc comment.

Effects are made explicit: the IOPub mpsc channel is a list of enqueued
messages, socket sends are a list of sent envelopes, log output is a list of
tagged log entries, and thread spawns are recorded as startup steps.
-/

namespace Amalthea

mutual

/-- A minimal JSON value, standing in for `serde_json::Value`. Only the
shapes that appear in the analysed sources are needed. -/
inductive Json where
  | null : Json
  | str : String → Json
  | obj : JsonFields → Json

/-- Field list of a JSON object. -/
inductive JsonFields where
  | nil : JsonFields
  | cons : String → Json → JsonFields → JsonFields

end

deriving instance DecidableEq for Json
deriving instance Repr for Json

/-- Status returned from the kernel inside messages
(`wire/jupyter_message.rs`, `enum Status`). -/
inductive Status where
  | ok : Status
  | error : Status
  deriving Repr, DecidableEq

/-- Execution state carried by a kernel status broadcast. Modelled from the
spec: `status.rs` is not among the analysed sources; the spec describes a
two-valued Busy/Idle state. -/
inductive ExecutionState where
  | busy : ExecutionState
  | idle : ExecutionState
  deriving Repr, DecidableEq

/-- Jupyter message header. Modelled from the spec: `header.rs` is not among
the analysed sources; the spec gives the fields {message_id, session_id,
username, timestamp, message_type, protocol_version}. -/
structure JupyterHeader where
  msg_id : String
  session_id : String
  username : String
  date : String
  msg_type : String
  version : String
  deriving Repr, DecidableEq

/-- Builds a fresh header for an outgoing message. Modelled from the spec:
`header.rs` (`JupyterHeader::create`) is not among the analysed sources. In
the source a fresh message id and timestamp are generated; no claim concerns
them, so they are fixed placeholders here. -/
def JupyterHeader.create (msgType : String) (sessionId : String)
    (username : String) : JupyterHeader :=
  { msg_id := "fresh"
    session_id := sessionId
    username := username
    date := "now"
    msg_type := msgType
    version := "5.3" }

/-- Per-kernel session identity. Modelled from the spec: `session.rs` is not
among the analysed sources; the spec gives {session_id, username,
signing_secret}, immutable after startup. -/
structure Session where
  session_id : String
  username : String
  key : String
  deriving Repr, DecidableEq

/-- A Jupyter message with typed content (`JupyterMessage<T>` in
`wire/jupyter_message.rs`). -/
structure JupyterMessage (T : Type) where
  zmq_identities : List (List Nat)
  header : JupyterHeader
  parent_header : Option JupyterHeader
  content : T
  deriving Repr, DecidableEq

/-- The `MessageType` trait of `wire/jupyter_message.rs`: every protocol
message content type has a wire type tag. -/
class MessageType (T : Type) where
  message_type : String

/-- Error-reply exception payload. Modelled from the spec: `exception.rs` is
not among the analysed sources; the spec gives exception {name, message,
traceback}. -/
structure Exception where
  name : String
  message : String
  traceback : List String
  deriving Repr, DecidableEq

/-- Content of an error reply (`error_reply.rs`, used by
`JupyterMessage::error_reply` in the analysed sources). Modelled from the
spec: the payload is {status: error, exception}. -/
structure ErrorReply where
  status : Status
  exception : Exception
  deriving Repr, DecidableEq

/-- Kernel info request content. Modelled from the spec:
`kernel_info_request.rs` is not among the analysed sources and the request
carries no fields the analysed code reads. -/
structure KernelInfoRequest where
  deriving Repr, DecidableEq

/-- Language info block of a kernel-info reply; fields as constructed in
`src/ark/src/shell.rs` (`handle_info_request`). -/
structure LanguageInfo where
  name : String
  version : String
  file_extension : String
  mimetype : String
  pygments_lexer : String
  codemirror_mode : String
  nbconvert_exporter : String
  deriving Repr, DecidableEq

/-- Help link entry of a kernel-info reply. Modelled from the spec:
`help_link.rs` is not among the analysed sources. -/
structure HelpLink where
  text : String
  url : String
  deriving Repr, DecidableEq

/-- Kernel info reply content; fields as constructed in
`src/ark/src/shell.rs` (`handle_info_request`). -/
structure KernelInfoReply where
  status : Status
  banner : String
  debugger : Bool
  protocol_version : String
  help_links : List HelpLink
  language_info : LanguageInfo
  deriving Repr, DecidableEq

/-- Is-complete request content. Modelled from the spec:
`is_complete_request.rs` is not among the analysed sources; the request
carries the code to check. -/
structure IsCompleteRequest where
  code : String
  deriving Repr, DecidableEq

/-- Completeness verdict (`is_complete_reply.rs`, `enum IsComplete`).
Modelled from the spec and from `src/ark/src/shell.rs`, which uses the
`Complete` variant. -/
inductive IsComplete where
  | complete : IsComplete
  | incomplete : IsComplete
  | invalid : IsComplete
  | unknown : IsComplete
  deriving Repr, DecidableEq

/-- Is-complete reply content; fields as constructed in
`src/ark/src/shell.rs` (`handle_is_complete_request`). -/
structure IsCompleteReply where
  status : IsComplete
  indent : String
  deriving Repr, DecidableEq

/-- Execute request content. Modelled from the spec:
`execute_request.rs` is not among the analysed sources; the analysed code
reads the `code` field. -/
structure ExecuteRequest where
  code : String
  deriving Repr, DecidableEq

/-- Execute reply content; fields as constructed in
`src/ark/src/shell.rs` (`handle_execute_request`). `execution_count` is a
`u32` in the source; the analysed code never performs arithmetic on it. -/
structure ExecuteReply where
  status : Status
  execution_count : Nat
  user_expressions : Json
  deriving Repr, DecidableEq

/-- Failed execute reply content. Modelled from the spec:
`execute_reply_exception.rs` is not among the analysed sources; it is an
execute reply whose content carries an exception, sent under the successful
reply's type tag. -/
structure ExecuteReplyException where
  status : Status
  execution_count : Nat
  exception : Exception
  deriving Repr, DecidableEq

/-- Execute result broadcast content. Modelled from the spec:
`execute_result.rs` is not among the analysed sources. -/
structure ExecuteResult where
  execution_count : Nat
  data : Json
  metadata : Json
  deriving Repr, DecidableEq

/-- Execution error broadcast content. Modelled from the spec:
`execute_error.rs` is not among the analysed sources. -/
structure ExecuteError where
  exception : Exception
  deriving Repr, DecidableEq

/-- Input-echo broadcast content. Modelled from the spec:
`execute_input.rs` is not among the analysed sources. -/
structure ExecuteInput where
  code : String
  execution_count : Nat
  deriving Repr, DecidableEq

/-- Completion request content. Modelled from the spec:
`complete_request.rs` is not among the analysed sources. -/
structure CompleteRequest where
  code : String
  cursor_pos : Nat
  deriving Repr, DecidableEq

/-- Completion reply content; fields as constructed in
`src/ark/src/shell.rs` (`handle_complete_request`). The source field
`matches` is renamed `completion_matches` because `matches` is reserved in
Lean. -/
structure CompleteReply where
  completion_matches : List String
  status : Status
  cursor_start : Nat
  cursor_end : Nat
  metadata : Json
  deriving Repr, DecidableEq

/-- Shutdown request content. Modelled from the spec:
`shutdown_request.rs` is not among the analysed sources. -/
structure ShutdownRequest where
  restart : Bool
  deriving Repr, DecidableEq

/-- Kernel status broadcast content (`status.rs`, `KernelStatus`), as
constructed in `Shell::send_state`. -/
structure KernelStatus where
  execution_state : ExecutionState
  deriving Repr, DecidableEq

/-- Comm info request content. Modelled from the spec:
`comm_info_request.rs` is not among the analysed sources. -/
structure CommInfoRequest where
  target_name : String
  deriving Repr, DecidableEq

/-- Comm info reply content; fields as constructed in
`src/ark/src/shell.rs` (`handle_comm_info_request`). -/
structure CommInfoReply where
  status : Status
  comms : Json
  deriving Repr, DecidableEq

/-!
Wire type tags. Modelled from the spec: the individual `wire/*.rs` content
modules defining `message_type()` are not among the analysed sources; the
spec's closed catalog is realised with the canonical Jupyter protocol tag
strings. `ExecuteReplyException` shares the successful execute reply's tag,
as the spec requires for content-level error variants.
-/

instance : MessageType KernelInfoRequest := ⟨"kernel_info_request"⟩
instance : MessageType KernelInfoReply := ⟨"kernel_info_reply"⟩
instance : MessageType IsCompleteRequest := ⟨"is_complete_request"⟩
instance : MessageType IsCompleteReply := ⟨"is_complete_reply"⟩
instance : MessageType ExecuteRequest := ⟨"execute_request"⟩
instance : MessageType ExecuteReply := ⟨"execute_reply"⟩
instance : MessageType ExecuteReplyException := ⟨"execute_reply"⟩
instance : MessageType ExecuteResult := ⟨"execute_result"⟩
instance : MessageType ExecuteError := ⟨"error"⟩
instance : MessageType ExecuteInput := ⟨"execute_input"⟩
instance : MessageType CompleteRequest := ⟨"complete_request"⟩
instance : MessageType CompleteReply := ⟨"complete_reply"⟩
instance : MessageType ShutdownRequest := ⟨"shutdown_request"⟩
instance : MessageType KernelStatus := ⟨"status"⟩
instance : MessageType CommInfoRequest := ⟨"comm_info_request"⟩
instance : MessageType CommInfoReply := ⟨"comm_info_reply"⟩

/-- The wire type tag of a protocol message content type
(`T::message_type()` in the source). -/
def tagOf (T : Type) [m : MessageType T] : String :=
  m.message_type

/-- The JSON content frame of an envelope, viewed as a sum over the typed
content schemas (plus a malformed case). Stands in for the raw
`serde_json::Value` content that each `JupyterMessage<T>::try_from` branch
attempts to deserialize. -/
inductive RawContent where
  | kernelInfoRequest : KernelInfoRequest → RawContent
  | kernelInfoReply : KernelInfoReply → RawContent
  | isCompleteRequest : IsCompleteRequest → RawContent
  | isCompleteReply : IsCompleteReply → RawContent
  | executeRequest : ExecuteRequest → RawContent
  | executeReply : ExecuteReply → RawContent
  | executeReplyException : ExecuteReplyException → RawContent
  | executeResult : ExecuteResult → RawContent
  | executeError : ExecuteError → RawContent
  | executeInput : ExecuteInput → RawContent
  | completeRequest : CompleteRequest → RawContent
  | completeReply : CompleteReply → RawContent
  | shutdownRequest : ShutdownRequest → RawContent
  | status : KernelStatus → RawContent
  | commInfoRequest : CommInfoRequest → RawContent
  | commInfoReply : CommInfoReply → RawContent
  | errorReply : ErrorReply → RawContent
  | malformed : RawContent
  deriving Repr, DecidableEq

/-- Serialization of a typed content into the content frame and the
type-directed deserialization attempt performed by each decode branch.
Modelled from the spec: the serde codecs live in the wire content modules,
not among the analysed sources. -/
class WireContent (T : Type) where
  toRaw : T → RawContent
  fromRaw : RawContent → Option T

instance : WireContent KernelInfoRequest :=
  ⟨RawContent.kernelInfoRequest,
   fun r => match r with | .kernelInfoRequest c => some c | _ => none⟩
instance : WireContent KernelInfoReply :=
  ⟨RawContent.kernelInfoReply,
   fun r => match r with | .kernelInfoReply c => some c | _ => none⟩
instance : WireContent IsCompleteRequest :=
  ⟨RawContent.isCompleteRequest,
   fun r => match r with | .isCompleteRequest c => some c | _ => none⟩
instance : WireContent IsCompleteReply :=
  ⟨RawContent.isCompleteReply,
   fun r => match r with | .isCompleteReply c => some c | _ => none⟩
instance : WireContent ExecuteRequest :=
  ⟨RawContent.executeRequest,
   fun r => match r with | .executeRequest c => some c | _ => none⟩
instance : WireContent ExecuteReply :=
  ⟨RawContent.executeReply,
   fun r => match r with | .executeReply c => some c | _ => none⟩
instance : WireContent ExecuteReplyException :=
  ⟨RawContent.executeReplyException,
   fun r => match r with | .executeReplyException c => some c | _ => none⟩
instance : WireContent ExecuteResult :=
  ⟨RawContent.executeResult,
   fun r => match r with | .executeResult c => some c | _ => none⟩
instance : WireContent ExecuteError :=
  ⟨RawContent.executeError,
   fun r => match r with | .executeError c => some c | _ => none⟩
instance : WireContent ExecuteInput :=
  ⟨RawContent.executeInput,
   fun r => match r with | .executeInput c => some c | _ => none⟩
instance : WireContent CompleteRequest :=
  ⟨RawContent.completeRequest,
   fun r => match r with | .completeRequest c => some c | _ => none⟩
instance : WireContent CompleteReply :=
  ⟨RawContent.completeReply,
   fun r => match r with | .completeReply c => some c | _ => none⟩
instance : WireContent ShutdownRequest :=
  ⟨RawContent.shutdownRequest,
   fun r => match r with | .shutdownRequest c => some c | _ => none⟩
instance : WireContent KernelStatus :=
  ⟨RawContent.status,
   fun r => match r with | .status c => some c | _ => none⟩
instance : WireContent CommInfoRequest :=
  ⟨RawContent.commInfoRequest,
   fun r => match r with | .commInfoRequest c => some c | _ => none⟩
instance : WireContent CommInfoReply :=
  ⟨RawContent.commInfoReply,
   fun r => match r with | .commInfoReply c => some c | _ => none⟩
instance : WireContent ErrorReply :=
  ⟨RawContent.errorReply,
   fun r => match r with | .errorReply c => some c | _ => none⟩

/-- A decoded, signature-verified wire envelope. Modelled from the spec:
`wire_message.rs` is not among the analysed sources; the spec gives
{routing_identities, header, parent_header (optional), metadata, content,
signature}, with signature verification performed before any output. The
metadata and signature frames play no role in any claim and are omitted. -/
structure WireMessage where
  zmq_identities : List (List Nat)
  header : JupyterHeader
  parent_header : Option JupyterHeader
  content : RawContent
  deriving Repr, DecidableEq

/-- List of all known/implemented messages (`enum Message` in
`wire/jupyter_message.rs`). -/
inductive Message where
  | completeReply : JupyterMessage CompleteReply → Message
  | completeRequest : JupyterMessage CompleteRequest → Message
  | executeReply : JupyterMessage ExecuteReply → Message
  | executeReplyException : JupyterMessage ExecuteReplyException → Message
  | executeRequest : JupyterMessage ExecuteRequest → Message
  | executeResult : JupyterMessage ExecuteResult → Message
  | executeError : JupyterMessage ExecuteError → Message
  | executeInput : JupyterMessage ExecuteInput → Message
  | isCompleteReply : JupyterMessage IsCompleteReply → Message
  | isCompleteRequest : JupyterMessage IsCompleteRequest → Message
  | kernelInfoReply : JupyterMessage KernelInfoReply → Message
  | kernelInfoRequest : JupyterMessage KernelInfoRequest → Message
  | shutdownRequest : JupyterMessage ShutdownRequest → Message
  | status : JupyterMessage KernelStatus → Message
  | commInfoReply : JupyterMessage CommInfoReply → Message
  | commInfoRequest : JupyterMessage CommInfoRequest → Message
  deriving Repr, DecidableEq

/-- The canonical wire tag of a typed message's variant: the tag of its
content type. Observer used to state catalog properties. -/
def Message.kind : Message → String
  | .completeReply _ => tagOf CompleteReply
  | .completeRequest _ => tagOf CompleteRequest
  | .executeReply _ => tagOf ExecuteReply
  | .executeReplyException _ => tagOf ExecuteReplyException
  | .executeRequest _ => tagOf ExecuteRequest
  | .executeResult _ => tagOf ExecuteResult
  | .executeError _ => tagOf ExecuteError
  | .executeInput _ => tagOf ExecuteInput
  | .isCompleteReply _ => tagOf IsCompleteReply
  | .isCompleteRequest _ => tagOf IsCompleteRequest
  | .kernelInfoReply _ => tagOf KernelInfoReply
  | .kernelInfoRequest _ => tagOf KernelInfoRequest
  | .shutdownRequest _ => tagOf ShutdownRequest
  | .status _ => tagOf KernelStatus
  | .commInfoReply _ => tagOf CommInfoReply
  | .commInfoRequest _ => tagOf CommInfoRequest

/-- Protocol errors. Modelled from the spec and from use in the analysed
sources: `error.rs` is not among them. `unsupportedMessage` and `sendError`
appear in `socket/shell.rs`, `unknownMessageType` in
`wire/jupyter_message.rs`; `invalidMessage` is the content-deserialization
failure produced inside `JupyterMessage::try_from` (in the missing
`wire_message.rs`). -/
inductive Error where
  | unsupportedMessage : Message → String → Error
  | sendError : String → Error
  | unknownMessageType : String → Error
  | invalidMessage : String → Error
  deriving Repr, DecidableEq

/-- Decodes the content frame of a wire envelope into a typed
`JupyterMessage T`. Modelled from the spec: the
`impl TryFrom<WireMessage> for JupyterMessage<T>` lives in the missing
`wire_message.rs`; it copies the envelope's identities and headers and
deserializes the content, failing closed on a schema mismatch. -/
def JupyterMessage.tryFromWire (T : Type) [WireContent T] (msg : WireMessage) :
    Except Error (JupyterMessage T) :=
  match WireContent.fromRaw msg.content with
  | some c =>
    .ok { zmq_identities := msg.zmq_identities
          header := msg.header
          parent_header := msg.parent_header
          content := c }
  | none => .error (.invalidMessage msg.header.msg_type)

/-- Converts from a wire message to a Jupyter message by examining the
message type and attempting to coerce the content into the appropriate
structure (`impl TryFrom<WireMessage> for Message` in
`wire/jupyter_message.rs`). The comparison chain follows the source order;
not all catalog variants are decoded here (only messages received from the
front end have branches). -/
def Message.tryFrom (msg : WireMessage) : Except Error Message :=
  let kind := msg.header.msg_type
  if kind = tagOf KernelInfoRequest then
    (JupyterMessage.tryFromWire KernelInfoRequest msg).map Message.kernelInfoRequest
  else if kind = tagOf KernelInfoReply then
    (JupyterMessage.tryFromWire KernelInfoReply msg).map Message.kernelInfoReply
  else if kind = tagOf IsCompleteRequest then
    (JupyterMessage.tryFromWire IsCompleteRequest msg).map Message.isCompleteRequest
  else if kind = tagOf IsCompleteReply then
    (JupyterMessage.tryFromWire IsCompleteReply msg).map Message.isCompleteReply
  else if kind = tagOf ExecuteRequest then
    (JupyterMessage.tryFromWire ExecuteRequest msg).map Message.executeRequest
  else if kind = tagOf ExecuteReply then
    (JupyterMessage.tryFromWire ExecuteReply msg).map Message.executeReply
  else if kind = tagOf ExecuteResult then
    (JupyterMessage.tryFromWire ExecuteResult msg).map Message.executeResult
  else if kind = tagOf ExecuteInput then
    (JupyterMessage.tryFromWire ExecuteInput msg).map Message.executeInput
  else if kind = tagOf CompleteRequest then
    (JupyterMessage.tryFromWire CompleteRequest msg).map Message.completeRequest
  else if kind = tagOf CompleteReply then
    (JupyterMessage.tryFromWire CompleteReply msg).map Message.completeReply
  else if kind = tagOf ShutdownRequest then
    (JupyterMessage.tryFromWire ShutdownRequest msg).map Message.shutdownRequest
  else if kind = tagOf KernelStatus then
    (JupyterMessage.tryFromWire KernelStatus msg).map Message.status
  else if kind = tagOf CommInfoRequest then
    (JupyterMessage.tryFromWire CommInfoRequest msg).map Message.commInfoRequest
  else if kind = tagOf CommInfoReply then
    (JupyterMessage.tryFromWire CommInfoReply msg).map Message.commInfoReply
  else
    .error (.unknownMessageType kind)

/-- The tags matched by the decode chain of `Message.tryFrom`, in source
order. -/
def knownTags : List String :=
  [tagOf KernelInfoRequest, tagOf KernelInfoReply,
   tagOf IsCompleteRequest, tagOf IsCompleteReply,
   tagOf ExecuteRequest, tagOf ExecuteReply,
   tagOf ExecuteResult, tagOf ExecuteInput,
   tagOf CompleteRequest, tagOf CompleteReply,
   tagOf ShutdownRequest, tagOf KernelStatus,
   tagOf CommInfoRequest, tagOf CommInfoReply]

/-- Create a new Jupyter message, optionally as a child (reply) to an
existing message (`JupyterMessage::create` in `wire/jupyter_message.rs`). -/
def JupyterMessage.create {T : Type} [MessageType T] (content : T)
    (parent : Option JupyterHeader) (session : Session) : JupyterMessage T :=
  { zmq_identities := []
    header := JupyterHeader.create (tagOf T) session.session_id session.username
    parent_header := parent
    content := content }

/-- Create a reply to this message with the given content
(`JupyterMessage::create_reply`). The new header uses the kernel session
given as an argument, not the client session of the message itself. -/
def JupyterMessage.create_reply {T R : Type} [MessageType R]
    (self : JupyterMessage T) (content : R) (session : Session) :
    JupyterMessage R :=
  { zmq_identities := self.zmq_identities
    header := JupyterHeader.create (tagOf R) session.session_id session.username
    parent_header := some self.header
    content := content }

/-- Creates an error reply to this message (`JupyterMessage::error_reply`).
Error replies use the message type of a successful reply `R`, but their
content is an exception instead. -/
def JupyterMessage.error_reply {T : Type} (R : Type) [MessageType R]
    (self : JupyterMessage T) (exception : Exception) (session : Session) :
    JupyterMessage ErrorReply :=
  { zmq_identities := self.zmq_identities
    header := JupyterHeader.create (tagOf R) session.session_id session.username
    parent_header := some self.header
    content := { status := Status.error, exception := exception } }

/-- An envelope handed to the zmq socket for delivery, with its typed
content erased to the content frame. Socket sends and message serialization
are modelled as succeeding; the analysed loop only logs delivery errors. -/
structure Sent where
  zmq_identities : List (List Nat)
  header : JupyterHeader
  parent_header : Option JupyterHeader
  content : RawContent
  deriving Repr, DecidableEq

/-- Erases a typed message into its on-the-wire form
(`WireMessage::try_from` on the send path, modelled total). -/
def Sent.of {T : Type} [WireContent T] (m : JupyterMessage T) : Sent :=
  { zmq_identities := m.zmq_identities
    header := m.header
    parent_header := m.parent_header
    content := WireContent.toRaw m.content }

/-- A message enqueued to the IOPub broadcast thread. Modelled from use in
the analysed sources (`iopub.rs` is not among them): `Shell::send_state`
enqueues `IOPubMessage::Status(parent_header, status)`. -/
inductive IOPubMessage where
  | status : JupyterHeader → KernelStatus → IOPubMessage
  deriving Repr, DecidableEq

/-- The language-provided shell handler capability. Modelled from the spec
and from both usage sites: the `ShellHandler` trait file is not among the
analysed sources. Each method may fail with an exception; the execute
handler's failure type is a full reply exception. Handler-internal state
mutation is not observable at the dispatch layer modelled here. -/
structure ShellHandler where
  handle_info_request : KernelInfoRequest → Except Exception KernelInfoReply
  handle_is_complete_request : IsCompleteRequest → Except Exception IsCompleteReply
  handle_execute_request : ExecuteRequest → Except ExecuteReplyException ExecuteReply
  handle_complete_request : CompleteRequest → Except Exception CompleteReply
  handle_comm_info_request : CommInfoRequest → Except Exception CommInfoReply

namespace Shell

/-- Sets the kernel state by sending a message on the IOPub channel
(`Shell::send_state` in `socket/shell.rs`). The mpsc channel is modelled as
the list of messages enqueued so far; a send to the live IOPub thread
succeeds. -/
def send_state {T : Type} (iopub : List IOPubMessage)
    (parent : JupyterMessage T) (state : ExecutionState) :
    List IOPubMessage :=
  iopub ++ [IOPubMessage.status parent.header { execution_state := state }]

/-- Wrapper for all request handlers (`Shell::handle_request` in
`socket/shell.rs`): emits Busy, invokes the handler, then emits Idle —
always, even if the handler produced an error. The handler is given the
IOPub queue so that the bracket's position relative to anything the handler
publishes is visible; it returns the queue, its socket sends, and its
result. -/
def handle_request {T : Type} (iopub : List IOPubMessage)
    (req : JupyterMessage T)
    (handler : List IOPubMessage → JupyterMessage T →
      List IOPubMessage × List Sent × Except Error Unit) :
    List IOPubMessage × List Sent × Except Error Unit :=
  let ioBusy := send_state iopub req ExecutionState.busy
  let out := handler ioBusy req
  let ioIdle := send_state out.1 req ExecutionState.idle
  (ioIdle, out.2.1, out.2.2)

/-- Handles a request for kernel information (`Shell::handle_info_request`):
sends a reply on success, an error reply under the kernel-info reply tag on
failure. -/
def handle_info_request (h : ShellHandler) (session : Session)
    (req : JupyterMessage KernelInfoRequest) : List Sent × Except Error Unit :=
  match h.handle_info_request req.content with
  | .ok reply => ([Sent.of (req.create_reply reply session)], .ok ())
  | .error err => ([Sent.of (req.error_reply KernelInfoReply err session)], .ok ())

/-- Handles a request to test code for completeness
(`Shell::handle_is_complete_request`). -/
def handle_is_complete_request (h : ShellHandler) (session : Session)
    (req : JupyterMessage IsCompleteRequest) : List Sent × Except Error Unit :=
  match h.handle_is_complete_request req.content with
  | .ok reply => ([Sent.of (req.create_reply reply session)], .ok ())
  | .error err => ([Sent.of (req.error_reply IsCompleteReply err session)], .ok ())

/-- Handles an execution request (`Shell::handle_execute_request` in
`socket/shell.rs`): both the success reply and the failure reply are sent
with `send_reply` (the failure content is itself a well-formed execute
reply carrying the exception). -/
def handle_execute_request (h : ShellHandler) (session : Session)
    (req : JupyterMessage ExecuteRequest) : List Sent × Except Error Unit :=
  match h.handle_execute_request req.content with
  | .ok reply => ([Sent.of (req.create_reply reply session)], .ok ())
  | .error err => ([Sent.of (req.create_reply err session)], .ok ())

/-- Handles a request for code completion (`Shell::handle_complete_request`). -/
def handle_complete_request (h : ShellHandler) (session : Session)
    (req : JupyterMessage CompleteRequest) : List Sent × Except Error Unit :=
  match h.handle_complete_request req.content with
  | .ok reply => ([Sent.of (req.create_reply reply session)], .ok ())
  | .error err => ([Sent.of (req.error_reply CompleteReply err session)], .ok ())

/-- Handles a request for open comms (`Shell::handle_comm_info_request`). -/
def handle_comm_info_request (h : ShellHandler) (session : Session)
    (req : JupyterMessage CommInfoRequest) : List Sent × Except Error Unit :=
  match h.handle_comm_info_request req.content with
  | .ok reply => ([Sent.of (req.create_reply reply session)], .ok ())
  | .error err => ([Sent.of (req.error_reply CommInfoReply err session)], .ok ())

/-- Lifts a per-variant handler wrapper into the shape `handle_request`
expects: the wrappers do not touch the IOPub queue. -/
def onSocket {T : Type} (f : JupyterMessage T → List Sent × Except Error Unit)
    (iopub : List IOPubMessage) (req : JupyterMessage T) :
    List IOPubMessage × List Sent × Except Error Unit :=
  (iopub, f req)

/-- Processes a message received from the front end
(`Shell::process_message` in `socket/shell.rs`): the five request variants
the shell dispatches get the Busy/Idle bracket around their handler; any
other decoded message is an `UnsupportedMessage` on channel "shell". -/
def process_message (h : ShellHandler) (session : Session)
    (iopub : List IOPubMessage) (msg : Message) :
    List IOPubMessage × List Sent × Except Error Unit :=
  match msg with
  | .kernelInfoRequest req =>
    handle_request iopub req (onSocket (handle_info_request h session))
  | .isCompleteRequest req =>
    handle_request iopub req (onSocket (handle_is_complete_request h session))
  | .executeRequest req =>
    handle_request iopub req (onSocket (handle_execute_request h session))
  | .completeRequest req =>
    handle_request iopub req (onSocket (handle_complete_request h session))
  | .commInfoRequest req =>
    handle_request iopub req (onSocket (handle_comm_info_request h session))
  | other => (iopub, [], .error (.unsupportedMessage other "shell"))

/-- Tells whether a decoded message is one of the request variants the
shell loop dispatches to a handler. -/
def isShellRequest : Message → Bool
  | .kernelInfoRequest _ => true
  | .isCompleteRequest _ => true
  | .executeRequest _ => true
  | .completeRequest _ => true
  | .commInfoRequest _ => true
  | _ => false

/-- A log line emitted by the shell channel loop (`warn!` calls in
`Shell::listen`). -/
inductive LoopLog where
  | readError : Error → LoopLog
  | handleError : Error → LoopLog
  deriving Repr, DecidableEq

/-- Observable state of the shell channel loop: the IOPub queue, the
envelopes sent on the shell socket, the log, and the messages that were
handed to `process_message`. -/
structure LoopState where
  iopub : List IOPubMessage
  sends : List Sent
  log : List LoopLog
  dispatched : List Message
  deriving Repr, DecidableEq

/-- One iteration of `Shell::listen`: a failed read
(`Message::read_from_socket` returning an error) is logged and the message
is dropped; a decoded message is handed to `process_message`, whose failure
is logged. -/
def listen_step (h : ShellHandler) (session : Session)
    (st : LoopState) (input : Except Error Message) : LoopState :=
  match input with
  | .error err =>
    { st with log := st.log ++ [LoopLog.readError err] }
  | .ok m =>
    let out := process_message h session st.iopub m
    { iopub := out.1
      sends := st.sends ++ out.2.1
      log := st.log ++ (match out.2.2 with
        | .ok _ => []
        | .error e => [LoopLog.handleError e])
      dispatched := st.dispatched ++ [m] }

/-- Main loop for the shell thread (`Shell::listen`), run over a finite
prefix of the socket's read results: every inbound result is handled in
order and the loop never exits early. -/
def listen (h : ShellHandler) (session : Session)
    (st : LoopState) : List (Except Error Message) → LoopState
  | [] => st
  | input :: rest => listen h session (listen_step h session st input) rest

end Shell

/-- One of the four transport roles, named as in `Kernel::connect`
(`kernel.rs`): Shell is the execution request channel, IOPub the broadcast
channel. -/
inductive Role where
  | shell : Role
  | iopub : Role
  | heartbeat : Role
  | control : Role
  deriving Repr, DecidableEq

/-- One observable step of kernel startup: binding a role's socket,
spawning a thread running a role's loop (`thread::spawn`), or running a
role's loop directly on the calling thread. -/
inductive StartupStep where
  | createSocket : Role → StartupStep
  | spawnThread : Role → StartupStep
  | runInline : Role → StartupStep
  deriving Repr, DecidableEq

namespace Kernel

/-- Startup sequence of `Kernel::connect` (`kernel.rs`): the Shell, IOPub
and Heartbeat sockets are each created and served by a spawned thread; the
Control socket is created last and `Self::control_thread(control_socket)`
is then invoked directly, so the Control loop runs on the calling thread
(the source marks this with a TODO about spawning/joining a thread). -/
def connect : List StartupStep :=
  [StartupStep.createSocket Role.shell,
   StartupStep.spawnThread Role.shell,
   StartupStep.createSocket Role.iopub,
   StartupStep.spawnThread Role.iopub,
   StartupStep.createSocket Role.heartbeat,
   StartupStep.spawnThread Role.heartbeat,
   StartupStep.createSocket Role.control,
   StartupStep.runInline Role.control]

end Kernel

/-- The roles that `Kernel::connect` serves on spawned threads, in spawn
order. -/
def spawnedRoles (steps : List StartupStep) : List Role :=
  steps.filterMap fun s => match s with
    | .spawnThread r => some r
    | _ => none

/-- The roles whose loop `Kernel::connect` runs on the calling thread. -/
def inlineRoles (steps : List StartupStep) : List Role :=
  steps.filterMap fun s => match s with
    | .runInline r => some r
    | _ => none

end Amalthea

namespace Ark

open Amalthea

/-- The R-language shell handler state (`struct Shell` in
`src/ark/src/shell.rs`): the execution counter (`u32` in the source; this
code performs no arithmetic on it) . The `req_sender` channel to the
execution thread is modelled as a send effect on each call. -/
structure Shell where
  execution_count : Nat
  deriving Repr, DecidableEq

/-- A log line emitted by the ark shell handler (`warn!`, `debug!` and
`trace!` calls in `src/ark/src/shell.rs`). -/
inductive LogEntry where
  | warnSendExecFailed : LogEntry
  | traceExecutionFinished : String → LogEntry
  | debugStartLsp : String → LogEntry
  | warnUnexpectedLspData : LogEntry
  | warnUnknownComm : LogEntry
  deriving Repr, DecidableEq

/-- Tells whether a log entry is emitted at the warning level. -/
def LogEntry.isWarn : LogEntry → Bool
  | .warnSendExecFailed => true
  | .warnUnexpectedLspData => true
  | .warnUnknownComm => true
  | .traceExecutionFinished _ => false
  | .debugStartLsp _ => false

/-- Handles an execution request (`ShellHandler::handle_execute_request`
impl in `src/ark/src/shell.rs`): forwards the request to the execution
thread over `req_sender`; a send failure (`sendOk = false`, possible only
if the execution thread dropped its receiver) is logged as a warning and
nothing else. The handler then unconditionally reports success with the
current, unincremented execution counter. -/
def Shell.handle_execute_request (self : Shell) (req : ExecuteRequest)
    (sendOk : Bool) :
    Shell × List LogEntry × Except ExecuteReplyException ExecuteReply :=
  let sendLog := if sendOk then [] else [LogEntry.warnSendExecFailed]
  (self,
   sendLog ++ [LogEntry.traceExecutionFinished req.code],
   .ok { status := Status.ok
         execution_count := self.execution_count
         user_expressions := Json.null })

/-- The comm id under which the language-server comm is announced.
Modelled from the spec: `lsp/comm.rs` is not among the analysed sources and
no claim depends on the constant's concrete value. -/
def LSP_COMM_ID : String := "ark-lsp-comm"

/-- Payload of a comm-open message, as the ark handler sees it after serde:
either a well-formed `StartLsp` value carrying the client address, or data
that fails to deserialize. -/
inductive CommData where
  | startLsp : String → CommData
  | invalid : CommData
  deriving Repr, DecidableEq

/-- Comm-open request content. Modelled from the spec: `comm_open.rs` is
not among the analysed sources; the spec gives
`comm_open{comm_id, target_name, data}`. -/
structure CommOpen where
  comm_id : String
  target_name : String
  data : CommData
  deriving Repr, DecidableEq

/-- A side effect started by the ark shell handler. -/
inductive Action where
  | spawnLspThread : String → Action
  deriving Repr, DecidableEq

/-- Handles a request to open a new comm channel
(`ShellHandler::handle_comm_open` impl in `src/ark/src/shell.rs`): if the
request's `comm_id` equals the LSP comm id, parse the payload and spawn the
LSP thread (warning on a malformed payload); any other `comm_id` is logged
with a warning. The handler always returns success. -/
def Shell.handle_comm_open (req : CommOpen) :
    List LogEntry × List Action × Except Exception Unit :=
  if req.comm_id = LSP_COMM_ID then
    match req.data with
    | .startLsp addr =>
      ([LogEntry.debugStartLsp addr], [Action.spawnLspThread addr], .ok ())
    | .invalid =>
      ([LogEntry.warnUnexpectedLspData], [], .ok ())
  else
    ([LogEntry.warnUnknownComm], [], .ok ())

end Ark

open Amalthea

/-- A kernel session used to exercise the reply constructors. -/
def sampleSession : Session :=
  { session_id := "kernel-session", username := "kernel", key := "secret" }

/-- A front-end request header, with the requester's own session identity. -/
def clientHeader : JupyterHeader :=
  { msg_id := "req-1"
    session_id := "client-session"
    username := "client"
    date := "today"
    msg_type := tagOf KernelInfoRequest
    version := "5.3" }

/-- A concrete kernel-info request as received on the shell socket. -/
def sampleInfoReq : JupyterMessage KernelInfoRequest :=
  { zmq_identities := [[7]], header := clientHeader, parent_header := none, content := ⟨⟩ }

/-- A decoded status broadcast, a message the shell dispatcher does not
serve. -/
def sampleStatusMessage : Message :=
  Message.status
    { zmq_identities := []
      header := { clientHeader with msg_type := tagOf KernelStatus }
      parent_header := none
      content := ⟨ExecutionState.busy⟩ }

/-- A concrete shell handler capability. -/
def sampleHandler : ShellHandler :=
  { handle_info_request := fun _ =>
      .error { name := "E", message := "bad", traceback := [] }
    handle_is_complete_request := fun _ =>
      .ok { status := IsComplete.complete, indent := "" }
    handle_execute_request := fun _ =>
      .ok { status := Status.ok, execution_count := 0, user_expressions := Json.null }
    handle_complete_request := fun _ =>
      .ok { completion_matches := [], status := Status.ok, cursor_start := 0,
            cursor_end := 0, metadata := Json.null }
    handle_comm_info_request := fun _ =>
      .ok { status := Status.ok, comms := Json.null } }

/-- The loop state at thread start. -/
def emptyLoopState : Shell.LoopState :=
  { iopub := [], sends := [], log := [], dispatched := [] }

/-- A concrete language-info block. -/
def sampleLanguageInfo : LanguageInfo :=
  { name := "R", version := "4.0", file_extension := ".R", mimetype := "text/r",
    pygments_lexer := "", codemirror_mode := "", nbconvert_exporter := "" }

/-- A well-formed content frame for each known wire tag. -/
def sampleContentFor (tag : String) : RawContent :=
  if tag = tagOf KernelInfoRequest then .kernelInfoRequest ⟨⟩
  else if tag = tagOf KernelInfoReply then
    .kernelInfoReply ⟨Status.ok, "", false, "5.3", [], sampleLanguageInfo⟩
  else if tag = tagOf IsCompleteRequest then .isCompleteRequest ⟨""⟩
  else if tag = tagOf IsCompleteReply then .isCompleteReply ⟨IsComplete.complete, ""⟩
  else if tag = tagOf ExecuteRequest then .executeRequest ⟨"1+1"⟩
  else if tag = tagOf ExecuteReply then .executeReply ⟨Status.ok, 1, Json.null⟩
  else if tag = tagOf ExecuteResult then .executeResult ⟨1, Json.null, Json.null⟩
  else if tag = tagOf ExecuteInput then .executeInput ⟨"1+1", 1⟩
  else if tag = tagOf CompleteRequest then .completeRequest ⟨"", 0⟩
  else if tag = tagOf CompleteReply then .completeReply ⟨[], Status.ok, 0, 0, Json.null⟩
  else if tag = tagOf ShutdownRequest then .shutdownRequest ⟨false⟩
  else if tag = tagOf KernelStatus then .status ⟨ExecutionState.busy⟩
  else if tag = tagOf CommInfoRequest then .commInfoRequest ⟨""⟩
  else if tag = tagOf CommInfoReply then .commInfoReply ⟨Status.ok, Json.null⟩
  else .malformed

/-- A wire envelope with the given tag and a matching well-formed content
frame. -/
def sampleWireFor (tag : String) : WireMessage :=
  { zmq_identities := []
    header := { clientHeader with msg_type := tag }
    parent_header := none
    content := sampleContentFor tag }

/-- The variant tag a wire envelope decodes to, when it decodes. -/
def decodesToKind (w : WireMessage) : Option String :=
  match Message.tryFrom w with
  | .ok m => some m.kind
  | .error _ => none

/-- A wire envelope whose tag matches no catalog variant. -/
def bogusWire : WireMessage :=
  { zmq_identities := []
    header := { clientHeader with msg_type := "bogus_tag" }
    parent_header := none
    content := RawContent.malformed }

/-- A decode branch only produces the variant of its own constructor. -/
theorem tryFromWire_map_eq_ok {T : Type} [WireContent T] {msg : WireMessage}
    {ctor : JupyterMessage T → Message} {m : Message}
    (h : (JupyterMessage.tryFromWire T msg).map ctor = .ok m) :
    ∃ jm, m = ctor jm := by
  unfold JupyterMessage.tryFromWire at h
  rcases hr : WireContent.fromRaw (T := T) msg.content with _ | c
  · rw [hr] at h
    simp [Except.map] at h
  · rw [hr] at h
    simp [Except.map] at h
    exact ⟨_, h.symm⟩

/-- A decode branch never reports an unknown message type: it yields either
the decoded variant or a content-level decode failure. -/
theorem tryFromWire_map_ne_unknown {T : Type} [WireContent T] (msg : WireMessage)
    (ctor : JupyterMessage T → Message) (s : String) :
    (JupyterMessage.tryFromWire T msg).map ctor ≠
      Except.error (Error.unknownMessageType s) := by
  unfold JupyterMessage.tryFromWire
  rcases hr : WireContent.fromRaw (T := T) msg.content with _ | c <;>
    simp [hr, Except.map]

/-- The decode branches of `Message.tryFrom` as a tag-keyed list, in source
order. Proof-side view of the chain; `tryFrom_eq_runDecoders` shows it is
definitionally the same dispatch. -/
def decoders : List (String × (WireMessage → Except Error Message)) :=
  [(tagOf KernelInfoRequest, fun msg =>
      (JupyterMessage.tryFromWire KernelInfoRequest msg).map Message.kernelInfoRequest),
   (tagOf KernelInfoReply, fun msg =>
      (JupyterMessage.tryFromWire KernelInfoReply msg).map Message.kernelInfoReply),
   (tagOf IsCompleteRequest, fun msg =>
      (JupyterMessage.tryFromWire IsCompleteRequest msg).map Message.isCompleteRequest),
   (tagOf IsCompleteReply, fun msg =>
      (JupyterMessage.tryFromWire IsCompleteReply msg).map Message.isCompleteReply),
   (tagOf ExecuteRequest, fun msg =>
      (JupyterMessage.tryFromWire ExecuteRequest msg).map Message.executeRequest),
   (tagOf ExecuteReply, fun msg =>
      (JupyterMessage.tryFromWire ExecuteReply msg).map Message.executeReply),
   (tagOf ExecuteResult, fun msg =>
      (JupyterMessage.tryFromWire ExecuteResult msg).map Message.executeResult),
   (tagOf ExecuteInput, fun msg =>
      (JupyterMessage.tryFromWire ExecuteInput msg).map Message.executeInput),
   (tagOf CompleteRequest, fun msg =>
      (JupyterMessage.tryFromWire CompleteRequest msg).map Message.completeRequest),
   (tagOf CompleteReply, fun msg =>
      (JupyterMessage.tryFromWire CompleteReply msg).map Message.completeReply),
   (tagOf ShutdownRequest, fun msg =>
      (JupyterMessage.tryFromWire ShutdownRequest msg).map Message.shutdownRequest),
   (tagOf KernelStatus, fun msg =>
      (JupyterMessage.tryFromWire KernelStatus msg).map Message.status),
   (tagOf CommInfoRequest, fun msg =>
      (JupyterMessage.tryFromWire CommInfoRequest msg).map Message.commInfoRequest),
   (tagOf CommInfoReply, fun msg =>
      (JupyterMessage.tryFromWire CommInfoReply msg).map Message.commInfoReply)]

/-- Runs a tag-keyed decode chain: the first entry whose tag equals the
header's type tag decodes the message, and a tag matching no entry is an
`UnknownMessageType` failure. -/
def runDecoders : List (String × (WireMessage → Except Error Message)) →
    WireMessage → Except Error Message
  | [], msg => .error (.unknownMessageType msg.header.msg_type)
  | (tag, d) :: rest, msg =>
    if msg.header.msg_type = tag then d msg else runDecoders rest msg

/-- The source decode chain and its list view are the same function. -/
theorem tryFrom_eq_runDecoders (msg : WireMessage) :
    Message.tryFrom msg = runDecoders decoders msg := rfl

/-- The known tags are exactly the tags of the decode chain. -/
theorem knownTags_eq_decoders : knownTags = decoders.map Prod.fst := rfl

/-- A chain rejects a tag matching none of its entries with
`UnknownMessageType`. -/
theorem runDecoders_not_mem (l : List (String × (WireMessage → Except Error Message)))
    (msg : WireMessage) (h : msg.header.msg_type ∉ l.map Prod.fst) :
    runDecoders l msg = .error (.unknownMessageType msg.header.msg_type) := by
  induction l with
  | nil => rfl
  | cons p rest ih =>
    obtain ⟨tag, d⟩ := p
    simp only [List.map_cons, List.mem_cons, not_or] at h
    rw [runDecoders, if_neg h.1]
    exact ih h.2

/-- When a chain whose entries each decode only to variants of their own
tag succeeds, the decoded variant's tag is the header's tag. -/
theorem runDecoders_ok_kind (l : List (String × (WireMessage → Except Error Message)))
    (msg : WireMessage) (m : Message)
    (hl : ∀ p ∈ l, ∀ m', p.2 msg = .ok m' → Message.kind m' = p.1)
    (h : runDecoders l msg = .ok m) : m.kind = msg.header.msg_type := by
  induction l with
  | nil => exact absurd h (by simp [runDecoders])
  | cons p rest ih =>
    obtain ⟨tag, d⟩ := p
    rw [runDecoders] at h
    by_cases hc : msg.header.msg_type = tag
    · rw [if_pos hc] at h
      rw [hl (tag, d) (List.mem_cons_self _ _) m h, hc]
    · rw [if_neg hc] at h
      exact ih (fun p hp => hl p (List.mem_cons_of_mem _ hp)) h

/-- A chain whose entries never fail with `UnknownMessageType` does not
report a tag it knows as unknown. -/
theorem runDecoders_ne_unknown (l : List (String × (WireMessage → Except Error Message)))
    (msg : WireMessage) (s : String)
    (hl : ∀ p ∈ l, ∀ q, p.2 msg ≠ .error (.unknownMessageType q))
    (hmem : msg.header.msg_type ∈ l.map Prod.fst) :
    runDecoders l msg ≠ .error (.unknownMessageType s) := by
  induction l with
  | nil => simp at hmem
  | cons p rest ih =>
    obtain ⟨tag, d⟩ := p
    simp only [List.map_cons, List.mem_cons] at hmem
    rw [runDecoders]
    by_cases hc : msg.header.msg_type = tag
    · rw [if_pos hc]
      exact hl (tag, d) (List.mem_cons_self _ _) s
    · rw [if_neg hc]
      rcases hmem with h | h
      · exact absurd h hc
      · exact ih (fun p hp => hl p (List.mem_cons_of_mem _ hp)) h

/-- Every entry of the source decode chain decodes only to the variant
carrying its own tag. -/
theorem decoders_kind (msg : WireMessage) :
    ∀ p ∈ decoders, ∀ m, p.2 msg = .ok m → Message.kind m = p.1 := by
  intro p hp m hm
  simp only [decoders, List.mem_cons, List.not_mem_nil, or_false] at hp
  rcases hp with rfl | rfl | rfl | rfl | rfl | rfl | rfl | rfl | rfl | rfl |
    rfl | rfl | rfl | rfl
  all_goals
    rcases tryFromWire_map_eq_ok hm with ⟨jm, rfl⟩
  all_goals rfl

/-- No entry of the source decode chain fails with `UnknownMessageType`. -/
theorem decoders_ne_unknown (msg : WireMessage) :
    ∀ p ∈ decoders, ∀ q, p.2 msg ≠ .error (.unknownMessageType q) := by
  intro p hp q
  simp only [decoders, List.mem_cons, List.not_mem_nil, or_false] at hp
  rcases hp with rfl | rfl | rfl | rfl | rfl | rfl | rfl | rfl | rfl | rfl |
    rfl | rfl | rfl | rfl
  all_goals exact tryFromWire_map_ne_unknown msg _ q

set_option maxHeartbeats 1600000 in
/-- C4: the conversion from a wire message to a typed `Message` is total
over the closed variant set keyed by the header's type tag — a tag outside
the known set yields `UnknownMessageType` (never a silent default), a
successful decode yields the variant whose canonical tag is the incoming
tag, a known tag is never reported as unknown, and every known tag actually
decodes to its corresponding variant on a well-formed content frame. -/
theorem message_tryFrom_closed_catalog (msg : WireMessage) :
    (msg.header.msg_type ∉ knownTags →
      Message.tryFrom msg = .error (.unknownMessageType msg.header.msg_type)) ∧
    (∀ m : Message, Message.tryFrom msg = .ok m → m.kind = msg.header.msg_type) ∧
    (msg.header.msg_type ∈ knownTags →
      ∀ s, Message.tryFrom msg ≠ .error (.unknownMessageType s)) ∧
    (∀ tag ∈ knownTags, decodesToKind (sampleWireFor tag) = some tag) := by
  refine ⟨?_, ?_, ?_, ?_⟩
  · intro hmem
    rw [tryFrom_eq_runDecoders]
    exact runDecoders_not_mem decoders msg (by rwa [← knownTags_eq_decoders])
  · intro m hm
    rw [tryFrom_eq_runDecoders] at hm
    exact runDecoders_ok_kind decoders msg m (decoders_kind msg) hm
  · intro hmem s
    rw [tryFrom_eq_runDecoders]
    exact runDecoders_ne_unknown decoders msg s (decoders_ne_unknown msg)
      (by rwa [← knownTags_eq_decoders])
  · intro tag htag
    simp only [knownTags, List.mem_cons, List.not_mem_nil, or_false] at htag
    rcases htag with rfl | rfl | rfl | rfl | rfl | rfl | rfl | rfl | rfl | rfl |
      rfl | rfl | rfl | rfl <;> rfl

/-- C4 witness: an unmatched tag is a hard `UnknownMessageType` failure; the
status tag decodes to the status variant; a known tag is never reported
unknown. -/
theorem message_tryFrom_closed_catalog_witness :
    Message.tryFrom bogusWire = .error (.unknownMessageType "bogus_tag") ∧
    decodesToKind (sampleWireFor "status") = some "status" ∧
    Message.tryFrom (sampleWireFor "status") ≠
      .error (.unknownMessageType "bogus_tag") :=
  ⟨(message_tryFrom_closed_catalog bogusWire).1 (by decide),
   (message_tryFrom_closed_catalog bogusWire).2.2.2 "status" (by decide),
   (message_tryFrom_closed_catalog (sampleWireFor "status")).2.2.1 (by decide)
     "bogus_tag"⟩

/-- C1: for every request dispatched on the shell channel,
`Shell.handle_request` publishes exactly one Busy status event before the
handler runs and exactly one Idle status event after it returns, each
carrying the request's header as its parent header, and the Idle event is
published even when the handler reports a failure. -/
theorem shell_handle_request_busy_idle_bracket {T : Type}
    (iopub : List IOPubMessage) (req : JupyterMessage T)
    (handler : List IOPubMessage → JupyterMessage T →
      List IOPubMessage × List Sent × Except Error Unit)
    (hEvents : List IOPubMessage) (sends : List Sent)
    (r : Except Error Unit)
    (hAppend : ∀ io, handler io req = (io ++ hEvents, sends, r)) :
    Shell.handle_request iopub req handler =
      (iopub ++ [IOPubMessage.status req.header ⟨ExecutionState.busy⟩]
             ++ hEvents
             ++ [IOPubMessage.status req.header ⟨ExecutionState.idle⟩],
       sends, r) := by
  simp [Shell.handle_request, Shell.send_state, hAppend]

/-- C1 witness: the bracket around a handler that publishes nothing and
fails is Busy then Idle, both parented to the request, and the failure is
returned. -/
theorem shell_handle_request_busy_idle_bracket_witness :
    Shell.handle_request [] sampleInfoReq
      (fun io _ => (io, [], Except.error (Error.sendError "boom"))) =
      ([] ++ [IOPubMessage.status sampleInfoReq.header ⟨ExecutionState.busy⟩]
          ++ []
          ++ [IOPubMessage.status sampleInfoReq.header ⟨ExecutionState.idle⟩],
       [], Except.error (Error.sendError "boom")) :=
  shell_handle_request_busy_idle_bracket [] sampleInfoReq
    (fun io _ => (io, [], Except.error (Error.sendError "boom"))) [] []
    (Except.error (Error.sendError "boom")) (fun io => by simp)

/-- C2: `create_reply` builds a reply whose parent header is the request's
header and whose own header carries the kernel session's identity (never
the requester's) and the reply content type's canonical tag, with the
given content. -/
theorem create_reply_correlation {T R : Type} [MessageType R]
    (req : JupyterMessage T) (content : R) (session : Session) :
    (req.create_reply content session).parent_header = some req.header ∧
    (req.create_reply content session).header.session_id = session.session_id ∧
    (req.create_reply content session).header.username = session.username ∧
    (req.create_reply content session).header.msg_type = tagOf R ∧
    (req.create_reply content session).content = content :=
  ⟨rfl, rfl, rfl, rfl, rfl⟩

/-- C3: a failed read on the shell socket is logged and dropped — it is
never handed to `process_message`, nothing is sent or broadcast for it, and
the loop continues with the remaining inbound messages. -/
theorem shell_listen_read_failure_drops_and_continues
    (h : ShellHandler) (session : Session) (st : Shell.LoopState)
    (err : Error) (rest : List (Except Error Message)) :
    (Shell.listen_step h session st (.error err)).dispatched = st.dispatched ∧
    (Shell.listen_step h session st (.error err)).sends = st.sends ∧
    (Shell.listen_step h session st (.error err)).iopub = st.iopub ∧
    (Shell.listen_step h session st (.error err)).log =
      st.log ++ [Shell.LoopLog.readError err] ∧
    Shell.listen h session st (.error err :: rest) =
      Shell.listen h session (Shell.listen_step h session st (.error err)) rest :=
  ⟨rfl, rfl, rfl, rfl, rfl⟩

/-- C5: `error_reply` uses the successful reply type's tag (error replies
have no tag of their own), parents the reply to the request, and carries a
status-error payload holding the reported exception's name, message and
traceback. -/
theorem error_reply_uses_success_tag_and_payload {T : Type} (R : Type)
    [MessageType R] (req : JupyterMessage T) (ex : Exception)
    (session : Session) :
    (req.error_reply R ex session).header.msg_type = tagOf R ∧
    (req.error_reply R ex session).parent_header = some req.header ∧
    (req.error_reply R ex session).content =
      { status := Status.error, exception := ex } ∧
    (req.error_reply R ex session).content.exception.name = ex.name ∧
    (req.error_reply R ex session).content.exception.message = ex.message ∧
    (req.error_reply R ex session).content.exception.traceback = ex.traceback :=
  ⟨rfl, rfl, rfl, rfl, rfl, rfl⟩

/-- C6: a decoded shell-channel message that is not one of the five
dispatched request variants makes `process_message` return an
`UnsupportedMessage` error naming the message and the "shell" channel; no
reply and no status event is produced for it, the loop logs the error, and
the loop continues with the remaining inbound messages. -/
theorem shell_unsupported_message_logged_not_fatal
    (h : ShellHandler) (session : Session) (st : Shell.LoopState)
    (msg : Message) (rest : List (Except Error Message))
    (hNot : Shell.isShellRequest msg = false) :
    Shell.process_message h session st.iopub msg =
      (st.iopub, [], .error (.unsupportedMessage msg "shell")) ∧
    Shell.listen_step h session st (.ok msg) =
      { st with
          log := st.log ++
            [Shell.LoopLog.handleError (.unsupportedMessage msg "shell")]
          dispatched := st.dispatched ++ [msg] } ∧
    Shell.listen h session st (.ok msg :: rest) =
      Shell.listen h session (Shell.listen_step h session st (.ok msg)) rest := by
  cases msg <;>
    simp_all [Shell.process_message, Shell.isShellRequest, Shell.listen_step,
      Shell.listen]

/-- C6 witness: a status broadcast arriving on the shell channel is
reported as unsupported on "shell", logged, not replied to, and the loop
goes on. -/
theorem shell_unsupported_message_logged_not_fatal_witness :
    Shell.process_message sampleHandler sampleSession emptyLoopState.iopub
        sampleStatusMessage =
      (emptyLoopState.iopub, [],
       .error (.unsupportedMessage sampleStatusMessage "shell")) ∧
    Shell.listen_step sampleHandler sampleSession emptyLoopState
        (.ok sampleStatusMessage) =
      { emptyLoopState with
          log := emptyLoopState.log ++
            [Shell.LoopLog.handleError
              (.unsupportedMessage sampleStatusMessage "shell")]
          dispatched := emptyLoopState.dispatched ++ [sampleStatusMessage] } ∧
    Shell.listen sampleHandler sampleSession emptyLoopState
        (.ok sampleStatusMessage :: []) =
      Shell.listen sampleHandler sampleSession
        (Shell.listen_step sampleHandler sampleSession emptyLoopState
          (.ok sampleStatusMessage)) [] :=
  shell_unsupported_message_logged_not_fatal sampleHandler sampleSession
    emptyLoopState sampleStatusMessage [] rfl

/-- C8 counterexample: `Kernel::connect` does not start four threads — it
calls `thread::spawn` exactly three times (Shell, IOPub, Heartbeat); the
Control loop is run on the calling thread instead. -/
theorem kernel_connect_spawn_count_counterexample :
    ¬ 4 ≤ (spawnedRoles Kernel.connect).length := by decide

/-- C8 amended: `Kernel::connect` spawns dedicated threads for the Shell,
IOPub and Heartbeat roles, in that order, and runs the Control channel loop
inline on the calling thread — so the Control loop still executes on a
thread distinct from the Shell (execution) loop's and is independent of its
occupancy. -/
theorem kernel_connect_three_spawned_control_inline :
    spawnedRoles Kernel.connect = [Role.shell, Role.iopub, Role.heartbeat] ∧
    inlineRoles Kernel.connect = [Role.control] :=
  ⟨rfl, rfl⟩

/-- C9: the ark execute handler always reports success with the current,
unincremented execution counter and leaves its state unchanged; a failure
to forward the request to the execution thread is only logged as a warning
and never becomes an error reply. -/
theorem ark_handle_execute_request_always_ok (s : Ark.Shell)
    (req : ExecuteRequest) (sendOk : Bool) :
    (Ark.Shell.handle_execute_request s req sendOk).1 = s ∧
    (Ark.Shell.handle_execute_request s req sendOk).2.2 =
      .ok { status := Status.ok, execution_count := s.execution_count,
            user_expressions := Json.null } ∧
    (Ark.Shell.handle_execute_request s req sendOk).2.1 =
      (if sendOk then [] else [Ark.LogEntry.warnSendExecFailed]) ++
        [Ark.LogEntry.traceExecutionFinished req.code] :=
  ⟨rfl, rfl, rfl⟩

/-- C10: replies built by `create_reply` and `error_reply` carry exactly
the zmq routing identities of the request they answer, while an originating
message built by `create` carries an empty identity list. Both constructors
are pure functions of the request, which is therefore left unchanged. -/
theorem reply_identities_from_request_create_empty {T R S : Type}
    [MessageType R] [MessageType S]
    (req : JupyterMessage T) (content : R) (ex : Exception)
    (orig : S) (parent : Option JupyterHeader) (session : Session) :
    (req.create_reply content session).zmq_identities = req.zmq_identities ∧
    (req.error_reply R ex session).zmq_identities = req.zmq_identities ∧
    (JupyterMessage.create orig parent session).zmq_identities = [] :=
  ⟨rfl, rfl, rfl⟩

/-- A comm-open request whose target name is the spec's unrecognized
example, but whose comm id is the LSP comm id and whose payload is a
well-formed LSP start message. The ark handler never inspects target
names, so this target name is as unrecognized as any other. -/
def lspCommOpenUnknownTarget : Ark.CommOpen :=
  { comm_id := Ark.LSP_COMM_ID
    target_name := "unknown.target"
    data := Ark.CommData.startLsp "127.0.0.1:9277" }

/-- C7 counterexample: the claim keys the handler's behaviour on the
request's target name, but `handle_comm_open` keys on `comm_id`. For this
request the target name is unrecognized (the handler recognizes no target
names at all), yet it is false that the handler logs a warning and starts
nothing: no warning is logged and an LSP worker thread is started. -/
theorem ark_comm_open_unknown_target_counterexample :
    ¬ ((Ark.Shell.handle_comm_open lspCommOpenUnknownTarget).1.any
          Ark.LogEntry.isWarn = true ∧
       (Ark.Shell.handle_comm_open lspCommOpenUnknownTarget).2.1 = []) := by
  decide

/-- C7 amended: the ark comm-open handler keys on the request's comm id,
not its target name — for every comm-open request whose comm id is not the
LSP comm id it logs one warning, registers and starts nothing, sends no
error reply, and returns success; and it returns success for every
request. -/
theorem ark_comm_open_keyed_by_comm_id (req : Ark.CommOpen) :
    (req.comm_id ≠ Ark.LSP_COMM_ID →
      Ark.Shell.handle_comm_open req =
        ([Ark.LogEntry.warnUnknownComm], [], .ok ())) ∧
    (Ark.Shell.handle_comm_open req).2.2 = .ok () := by
  constructor
  · intro hne
    simp [Ark.Shell.handle_comm_open, hne]
  · by_cases hc : req.comm_id = Ark.LSP_COMM_ID
    · cases hd : req.data <;> simp [Ark.Shell.handle_comm_open, hc, hd]
    · simp [Ark.Shell.handle_comm_open, hc]

/-- A comm-open request for a comm id the kernel does not recognize. -/
def otherCommOpen : Ark.CommOpen :=
  { comm_id := "other-comm"
    target_name := "unknown.target"
    data := Ark.CommData.invalid }

/-- C7 amended witness: opening an unrecognized comm id logs one warning,
starts nothing and still succeeds. -/
theorem ark_comm_open_keyed_by_comm_id_witness :
    Ark.Shell.handle_comm_open otherCommOpen =
      ([Ark.LogEntry.warnUnknownComm], [], .ok ()) ∧
    (Ark.Shell.handle_comm_open otherCommOpen).2.2 = .ok () :=
  ⟨(ark_comm_open_keyed_by_comm_id otherCommOpen).1 (by decide),
   (ark_comm_open_keyed_by_comm_id otherCommOpen).2⟩
